import Mathlib

set_option linter.unusedVariables false

/-!
Shallow embedding of the kdotool command-pipeline compiler (src/main.rs).

The program parses a flat command-line token stream into a chain of directives,
compiles each directive into a script fragment, and concatenates the fragments
between a fixed header and footer. The templates module and the parser module of
the repository are not under src, so the fragment catalog, window-id recognition
and the cursor helpers are modelled from the spec (sections 4.1 to 4.3); fragment
text is opaque, a rendered fragment is identified by its template name together
with its bindings. Everything else below mirrors src/main.rs.
-/

/-- Modelled from the spec: the lexopt-style token cursor of section 4.1 (the parser
module is not under src). A token is a long option or a bare value; the cursor is the
list of remaining tokens. Short options only occur among the global options consumed
before script generation, so they are not part of the modelled alphabet. -/
inductive Tok where
  | long (s : String)
  | value (s : String)
deriving DecidableEq, Repr

/-- Raw command-line text of a token, as lexopt returns it when a token is consumed
as a value for a preceding flag. -/
def Tok.raw : Tok → String
  | .long s => "--" ++ s
  | .value s => s

abbrev Parser := List Tok

/-- Modelled from the spec: the closed catalog of named fragments of section 4.3 (the
templates module is not under src). Window-action and global-action bodies are one
template per command name. -/
inductive TemplateId where
  | SCRIPT_HEADER
  | SCRIPT_FOOTER
  | STEP_LAST_OUTPUT
  | STEP_SEARCH
  | STEP_GETACTIVEWINDOW
  | STEP_SAVEWINDOWSTACK
  | STEP_LOADWINDOWSTACK
  | STEP_ACTION_ON_STACK_ALL
  | STEP_ACTION_ON_STACK_ITEM
  | STEP_ACTION_ON_WINDOW_ID
  | STEP_GLOBAL_ACTION
  | WINDOW_ACTION (name : String)
  | GLOBAL_ACTION (name : String)
deriving DecidableEq, Repr

/-- A binding value layered into a handlebars context: JSON scalars plus an already
rendered fragment (fragment text is opaque, so a rendered action fragment is kept as
its template together with its bindings). -/
inductive Val where
  | vStr (s : String)
  | vBool (b : Bool)
  | vInt (n : Int)
  | vNull
  | vFrag (t : TemplateId) (bindings : List (String × Val))

abbrev Ctx := List (String × Val)

abbrev Frag := TemplateId × Ctx

/-- One binding insertion (add_context in main.rs); a later insertion shadows an
earlier one under lookup. -/
def add_context (ctx : Ctx) (key : String) (v : Val) : Ctx := (key, v) :: ctx

/-- Look a key up in a binding context (first, i.e. most recent, entry wins). -/
def ctxGet : Ctx → String → Option Val
  | [], _ => none
  | (k, v) :: rest, key => if k = key then some v else ctxGet rest key

/-- Read a boolean binding; main.rs unwraps, and the unwrap never fails on the
contexts built by generate_script, so a non-boolean lookup defaults to false here. -/
def ctxGetBool (ctx : Ctx) (key : String) : Bool :=
  match ctxGet ctx key with
  | some (.vBool b) => b
  | _ => false

/-- Errors surfaced by the compiler, one constructor per anyhow error shape of
main.rs. fuelExhausted marks exhaustion of the iteration bound of the compile loop;
the bound is one more than the token count and every continuing iteration consumes
at least one token, so it is never hit by a terminating run. -/
inductive Err where
  | unexpected (raw : String)
  | missingValue
  | missingArgument (name : String)
  | unsupportedProperty (key : String)
  | unknownCommand (command : String)
  | intParse (s : String)
  | fuelExhausted
  | inCommand (command : String) (e : Err)
deriving DecidableEq, Repr

/-- The Globals struct of main.rs (the SessionContext of the spec). -/
structure Globals where
  dbus_addr : String
  cmdline : String
  debug : Bool
  kde5 : Bool
  marker : String
  script_name : String
  shortcut : String
deriving DecidableEq, Repr

/-- Serialization of Globals into the base render context
(handlebars Context wraps of a serde record, in field order). -/
def contextWraps (g : Globals) : Ctx :=
  [("dbus_addr", .vStr g.dbus_addr), ("cmdline", .vStr g.cmdline),
   ("debug", .vBool g.debug), ("kde5", .vBool g.kde5), ("marker", .vStr g.marker),
   ("script_name", .vStr g.script_name), ("shortcut", .vStr g.shortcut)]

/-- The StepResult struct of main.rs: one compiled directive. -/
structure StepResult where
  script : Frag
  is_query : Bool
  next_arg : Option String

/-- Modelled from the spec: strict-mode rendering of an opaque named fragment
against a binding context (section 4.3); with fragment text opaque, the rendered
result is the template together with its bindings. -/
def render (t : TemplateId) (ctx : Ctx) : Frag := (t, ctx)

/-- Modelled from the spec: the window-action name table of the templates module
(not under src); sections 4.1 and 6 list windowstate, windowmove, windowsize,
set_desktop_for_window and further window-action names taking only the optional
window reference. -/
def WINDOW_ACTIONS : List String :=
  ["activatewindow", "windowactivate", "windowraise", "windowclose", "windowminimize",
   "windowstate", "windowmove", "windowsize", "set_desktop_for_window"]

/-- Modelled from the spec: the global-action name table of the templates module
(not under src). -/
def GLOBAL_ACTIONS : List String :=
  ["set_desktop", "set_num_desktops", "get_desktop", "get_num_desktops"]

/-- Association-list lookup used for the modelled string-keyed tables. -/
def tableGet : List (String × String) → String → Option String
  | [], _ => none
  | (k, v) :: rest, key => if k = key then some v else tableGet rest key

/-- Modelled from the spec: the windowstate property table of the templates module
(not under src), mapping a user-facing property name to the script-side property
used in the generated mutation. -/
def WINDOWSTATE_PROPERTIES : List (String × String) :=
  [("maximized", "maximized"), ("minimized", "minimized"), ("fullscreen", "fullScreen"),
   ("above", "keepAbove"), ("below", "keepBelow"), ("shaded", "shade"),
   ("skip_taskbar", "skipTaskbar"), ("skip_pager", "skipPager"),
   ("demands_attention", "demandsAttention")]

/-- Character-list prefix test (Rust str starts_with), defined on the character
list so that concrete evaluation unfolds. -/
def charsStartWith : List Char → List Char → Bool
  | _, [] => true
  | [], _ :: _ => false
  | c :: cs, d :: ds => c == d && charsStartWith cs ds

def strStartsWith (s pre : String) : Bool := charsStartWith s.data pre.data

def strEndsWith (s suf : String) : Bool := charsStartWith s.data.reverse suf.data.reverse

/-- Drop the first n characters (all prefixes dropped below are ASCII, so this
matches Rust byte slicing). -/
def strDrop (s : String) (n : Nat) : String := String.mk (s.data.drop n)

/-- Drop the last character (Rust strip_suffix of a one-character pattern). -/
def strDropLast (s : String) : String := String.mk (s.data.dropLast)

def strIsEmpty (s : String) : Bool := s.data.isEmpty

def digitsVal : List Char → Nat → Nat
  | [], acc => acc
  | c :: cs, acc => digitsVal cs (acc * 10 + (c.toNat - 48))

/-- Decimal digit-string parse on the character list (the digit part of Rust
integer parsing). -/
def strToNat? (s : String) : Option Nat :=
  if (!s.data.isEmpty) && s.data.all Char.isDigit then some (digitsVal s.data 0)
  else none

/-- ASCII lowercasing (Rust to_lowercase; the property names fed to it are ASCII). -/
def strToLower (s : String) : String := String.mk (s.data.map Char.toLower)

def isHexDigitChar (c : Char) : Bool :=
  c.isDigit || (('a' ≤ c) && (c ≤ 'f')) || (('A' ≤ c) && (c ≤ 'F'))

/-- Modelled from the spec: window-id recognition of section 4.2 (the parser module
is not under src). A token with stack syntax (a leading percent sign) or a numeric
or 0x-hexadecimal window-identifier shape is recognized, and recognition returns the
token verbatim; any other token is not a window reference. -/
def to_window_id (s : String) : Option String :=
  if strStartsWith s "%" then some s
  else if (!strIsEmpty s) && s.data.all Char.isDigit then some s
  else if strStartsWith s "0x" && (!strIsEmpty (strDrop s 2))
      && (strDrop s 2).data.all isHexDigitChar then
    some s
  else none

/-- Rust i32 string parsing: optional sign, decimal digits, 32-bit range check. -/
def parseI32 (s : String) : Except Err Int :=
  let body : String → Int → Except Err Int := fun t sg =>
    match strToNat? t with
    | some n =>
      if -(2 ^ 31) ≤ sg * (n : Int) ∧ sg * (n : Int) < 2 ^ 31 then .ok (sg * (n : Int))
      else .error (.intParse s)
    | none => .error (.intParse s)
  if strStartsWith s "-" then body (strDrop s 1) (-1)
  else if strStartsWith s "+" then body (strDrop s 1) 1
  else body s 1

/-- Rust u32 string parsing (used for the search limit). -/
def parseU32 (s : String) : Except Err Nat :=
  match strToNat? s with
  | some n => if n < 2 ^ 32 then .ok n else .error (.intParse s)
  | none => .error (.intParse s)

/-- Argument loop of the savewindowstack and loadwindowstack branch
(main.rs lines 130 to 144): first bare value is the stack name, a second bare value
is pushed back as the next command, a flag is an unexpected-argument error. -/
def stackLoop : Parser → Option String → Except Err (Option String × Option String × Parser)
  | [], an => .ok (an, none, [])
  | .value v :: rest, an =>
    match an with
    | none => stackLoop rest (some v)
    | some _ => .ok (an, some v, rest)
  | .long o :: _, _ => .error (.unexpected ("--" ++ o))

/-- One windowstate property mutation (main.rs lines 181 to 190). -/
def mutationJs (option : String) (prop : String) : String :=
  if option = "add" then "w." ++ prop ++ " = true; "
  else if option = "remove" then "w." ++ prop ++ " = false; "
  else "w." ++ prop ++ " = !w." ++ prop ++ "; "

/-- Argument loop of the windowstate branch (main.rs lines 171 to 212): add, remove
and toggle flags each consume the following token, lowercase it, look it up in the
property table and append one mutation; a bare value is window-id material or the
pushed-back next command. -/
def windowstateLoop : Parser → String → Option String → Option String →
    Except Err (String × Option String × Option String × Parser)
  | [], ws, wid, na => .ok (ws, wid, na, [])
  | .long o :: rest, ws, wid, na =>
    if o = "add" ∨ o = "remove" ∨ o = "toggle" then
      match rest with
      | [] => .error .missingValue
      | t :: rest2 =>
        let key := strToLower t.raw
        match tableGet WINDOWSTATE_PROPERTIES key with
        | some prop => windowstateLoop rest2 (ws ++ mutationJs o prop) wid na
        | none => .error (.unsupportedProperty key)
    else .error (.unexpected ("--" ++ o))
  | .value v :: rest, ws, wid, na =>
    if wid.isNone then
      match to_window_id v with
      | some id => windowstateLoop rest ws (some id) na
      | none => windowstateLoop rest ws wid (some v)
    else .ok (ws, wid, some v, rest)

/-- Argument loop of the windowmove and windowsize branch (main.rs lines 227 to 254).
The guards mirror the source exactly: while no window id has been seen, every bare
value that is not a window id is assigned to the x slot (even when that slot is
already filled). -/
def moveLoop (command : String) : Parser → Bool → Option String → Option String →
    Option String →
    Except Err (Bool × Option String × Option String × Option String × Option String × Parser)
  | [], rel, wid, ax, ay => .ok (rel, wid, ax, ay, none, [])
  | .long o :: rest, rel, wid, ax, ay =>
    if o = "relative" ∧ command = "windowmove" then moveLoop command rest true wid ax ay
    else .error (.unexpected ("--" ++ o))
  | .value v :: rest, rel, wid, ax, ay =>
    if wid.isNone then
      match to_window_id v with
      | some id => moveLoop command rest rel (some id) ax ay
      | none => moveLoop command rest rel wid (some v) ay
    else if ax.isNone then moveLoop command rest rel wid (some v) ay
    else if ay.isNone then moveLoop command rest rel wid ax (some v)
    else .ok (rel, wid, ax, ay, some v, rest)

/-- Argument loop of the set_desktop_for_window branch (main.rs lines 306 to 327). -/
def sdfwLoop : Parser → Option String → Option Int →
    Except Err (Option String × Option Int × Option String × Parser)
  | [], wid, d => .ok (wid, d, none, [])
  | .value v :: rest, wid, d =>
    if wid.isNone then
      match to_window_id v with
      | some id => sdfwLoop rest (some id) d
      | none =>
        match parseI32 v with
        | .ok n => sdfwLoop rest wid (some n)
        | .error e => .error e
    else if d.isNone then
      match parseI32 v with
      | .ok n => sdfwLoop rest wid (some n)
      | .error e => .error e
    else .ok (wid, d, some v, rest)
  | .long o :: _, _, _ => .error (.unexpected ("--" ++ o))

/-- Argument loop of the generic window-action branch (main.rs lines 337 to 356):
only an optional window reference; the first non-id value is pushed back. -/
def defaultActionLoop : Parser → Option String →
    Except Err (Option String × Option String × Parser)
  | [], wid => .ok (wid, none, [])
  | .value v :: rest, wid =>
    if wid.isNone then
      match to_window_id v with
      | some id => defaultActionLoop rest (some id)
      | none => .ok (wid, some v, rest)
    else .ok (wid, some v, rest)
  | .long o :: _, _ => .error (.unexpected ("--" ++ o))

/-- Argument loop of the set_desktop and set_num_desktops branch
(main.rs lines 388 to 401). -/
def globalNumLoop : Parser → Option Int →
    Except Err (Option Int × Option String × Parser)
  | [], n => .ok (n, none, [])
  | .value v :: rest, n =>
    if n.isNone then
      match parseI32 v with
      | .ok m => globalNumLoop rest (some m)
      | .error e => .error e
    else .ok (n, some v, rest)
  | .long o :: _, _ => .error (.unexpected ("--" ++ o))

/-- The Options record of step_search (main.rs lines 449 to 466), serde field order. -/
structure SearchOptions where
  debug : Bool := false
  kde5 : Bool := false
  match_class : Bool := false
  match_classname : Bool := false
  match_role : Bool := false
  match_name : Bool := false
  match_pid : Bool := false
  pid : Int := 0
  match_desktop : Bool := false
  desktop : Int := 0
  match_screen : Bool := false
  screen : Int := 0
  limit : Nat := 0
  match_all : Bool := false
  search_term : String := ""
deriving DecidableEq, Repr

/-- Serialization of the search options into the render context of the search step
(handlebars Context wraps of the Options record, in field order). -/
def optionsCtx (o : SearchOptions) : Ctx :=
  [("debug", .vBool o.debug), ("kde5", .vBool o.kde5),
   ("match_class", .vBool o.match_class), ("match_classname", .vBool o.match_classname),
   ("match_role", .vBool o.match_role), ("match_name", .vBool o.match_name),
   ("match_pid", .vBool o.match_pid), ("pid", .vInt o.pid),
   ("match_desktop", .vBool o.match_desktop), ("desktop", .vInt o.desktop),
   ("match_screen", .vBool o.match_screen), ("screen", .vInt o.screen),
   ("limit", .vInt (Int.ofNat o.limit)), ("match_all", .vBool o.match_all),
   ("search_term", .vStr o.search_term)]

/-- Initial search options (main.rs lines 468 to 486). Both the debug field and the
kde5 field are filled from the debug entry of the render context, exactly as in the
source, where the kde5 initializer also reads the key named debug. -/
def searchInit (render_context : Ctx) : SearchOptions :=
  { debug := ctxGetBool render_context "debug", kde5 := ctxGetBool render_context "debug" }

/-- Argument loop of step_search (main.rs lines 489 to 535). -/
def searchLoop : Parser → SearchOptions → Except Err (SearchOptions × Option String × Parser)
  | [], opt => .ok (opt, none, [])
  | .long o :: rest, opt =>
    if o = "class" then searchLoop rest { opt with match_class := true }
    else if o = "classname" then searchLoop rest { opt with match_classname := true }
    else if o = "role" then searchLoop rest { opt with match_role := true }
    else if o = "name" then searchLoop rest { opt with match_name := true }
    else if o = "pid" then
      match rest with
      | [] => .error .missingValue
      | t :: rest2 =>
        match parseI32 t.raw with
        | .ok n => searchLoop rest2 { opt with match_pid := true, pid := n }
        | .error e => .error e
    else if o = "desktop" then
      match rest with
      | [] => .error .missingValue
      | t :: rest2 =>
        match parseI32 t.raw with
        | .ok n => searchLoop rest2 { opt with match_desktop := true, desktop := n }
        | .error e => .error e
    else if o = "screen" then
      match rest with
      | [] => .error .missingValue
      | t :: rest2 =>
        match parseI32 t.raw with
        | .ok n => searchLoop rest2 { opt with match_screen := true, screen := n }
        | .error e => .error e
    else if o = "limit" then
      match rest with
      | [] => .error .missingValue
      | t :: rest2 =>
        match parseU32 t.raw with
        | .ok n => searchLoop rest2 { opt with limit := n }
        | .error e => .error e
    else if o = "all" then searchLoop rest { opt with match_all := true }
    else if o = "any" then searchLoop rest { opt with match_all := false }
    else .error (.unexpected ("--" ++ o))
  | .value v :: rest, opt =>
    if opt.search_term = "" then searchLoop rest { opt with search_term := v }
    else .ok (opt, some v, rest)

/-- Default-attribute fixup after the search loop (main.rs lines 536 to 541): if none
of the class, classname, role and name flags were given, enable all four. -/
def searchFixup (opt : SearchOptions) : SearchOptions :=
  if !(opt.match_class || opt.match_classname || opt.match_role || opt.match_name) then
    { opt with match_class := true, match_classname := true,
               match_role := true, match_name := true }
  else opt

/-- step_search of main.rs (lines 442 to 548): parse the search flags and the
positional term, apply the default-attribute fixup, and render the search fragment
against a fresh context built from the options alone. Always a query. -/
def step_search (p : Parser) (render_context : Ctx) : Except Err (StepResult × Parser) :=
  match searchLoop p (searchInit render_context) with
  | .error e => .error e
  | .ok (opt, na, p2) =>
    .ok ({ script := render .STEP_SEARCH (optionsCtx (searchFixup opt)),
           is_query := true, next_arg := na }, p2)

/-- Interpretation of one positional axis value of windowmove and windowsize
(main.rs lines 261 to 289, with the axis keyword passed in): the keyword leaves the
axis unset, a trailing percent sign makes it a percentage, otherwise it must be an
integer; the result is the pair of the absolute and the percent binding strings. -/
def axisFields (keyword : String) (arg : String) : Except Err (String × String) :=
  if arg = keyword then .ok ("", "")
  else if strEndsWith arg "%" then
    match parseI32 (strDropLast arg) with
    | .ok _ => .ok ("", strDropLast arg)
    | .error e => .error e
  else
    match parseI32 arg with
    | .ok _ => .ok (arg, "")
    | .error e => .error e

/-- Wrapper selection for a window action (main.rs lines 364 to 382): default the
window reference to the first stack entry, bind the rendered action fragment, and
pick the all-stack, stack-item or explicit-id wrapper. -/
def selectWrapper (arg_window_id : Option String) (ctx : Ctx) (action : Frag) :
    Except Err Frag :=
  let window_id := arg_window_id.getD "%1"
  let ctx2 := add_context ctx "action" (.vFrag action.1 action.2)
  if window_id = "%@" then
    .ok (render .STEP_ACTION_ON_STACK_ALL ctx2)
  else if strStartsWith window_id "%" then
    match parseI32 (strDrop window_id 1) with
    | .error e => .error e
    | .ok idx =>
      .ok (render .STEP_ACTION_ON_STACK_ITEM (add_context ctx2 "item_index" (.vInt idx)))
  else
    .ok (render .STEP_ACTION_ON_WINDOW_ID (add_context ctx2 "window_id" (.vStr window_id)))

/-- Per-command argument handling and action-fragment rendering of the window-action
branch of generate_step (main.rs lines 163 to 362); yields the collected window
reference, the rendered action fragment, the pushed-back token and the rest of the
cursor. -/
def windowActionInner (command : String) (p : Parser) (ctx : Ctx) :
    Except Err (Option String × Frag × Option String × Parser) :=
  if command = "windowstate" then
    match windowstateLoop p "" none none with
    | .error e => .error e
    | .ok (ws, wid, na, p2) =>
      .ok (wid, render (.WINDOW_ACTION command) (add_context ctx "windowstate" (.vStr ws)),
           na, p2)
  else if command = "windowmove" ∨ command = "windowsize" then
    match moveLoop command p false none none none with
    | .error e => .error e
    | .ok (rel, wid, ax, ay, na, p2) =>
      match ax with
      | none => .error (.missingArgument "x")
      | some axv =>
        match axisFields "x" axv with
        | .error e => .error e
        | .ok (x, xp) =>
          match ay with
          | none => .error (.missingArgument "y")
          | some ayv =>
            match axisFields "y" ayv with
            | .error e => .error e
            | .ok (y, yp) =>
              let ctx2 := add_context (add_context (add_context (add_context (add_context
                ctx "relative" (.vBool rel)) "x" (.vStr x)) "y" (.vStr y))
                "x_percent" (.vStr xp)) "y_percent" (.vStr yp)
              .ok (wid, render (.WINDOW_ACTION command) ctx2, na, p2)
  else if command = "set_desktop_for_window" then
    match sdfwLoop p none none with
    | .error e => .error e
    | .ok (wid, d, na, p2) =>
      let dv := match d with
        | some n => Val.vInt n
        | none => Val.vNull
      .ok (wid, render (.WINDOW_ACTION command) (add_context ctx "desktop_id" dv), na, p2)
  else
    match defaultActionLoop p none with
    | .error e => .error e
    | .ok (wid, na, p2) => .ok (wid, render (.WINDOW_ACTION command) ctx, na, p2)

/-- generate_step of main.rs (lines 104 to 440): dispatch one directive by command
name, producing its StepResult and the advanced cursor. -/
def generate_step (command : String) (p : Parser) (render_context : Ctx) :
    Except Err (StepResult × Parser) :=
  let ctx := add_context render_context "step_name" (.vStr command)
  if command = "search" then
    step_search p ctx
  else if command = "getactivewindow" then
    .ok ({ script := render .STEP_GETACTIVEWINDOW ctx, is_query := true, next_arg := none }, p)
  else if command = "savewindowstack" ∨ command = "loadwindowstack" then
    match stackLoop p none with
    | .error e => .error e
    | .ok (arg_name, na, p2) =>
      match arg_name with
      | none => .error (.missingArgument "name")
      | some nm =>
        let ctx2 := add_context ctx "name" (.vStr nm)
        .ok ({ script := render (if command = "savewindowstack" then .STEP_SAVEWINDOWSTACK
                                 else .STEP_LOADWINDOWSTACK) ctx2,
               is_query := command == "loadwindowstack", next_arg := na }, p2)
  else if WINDOW_ACTIONS.contains command then
    match windowActionInner command p ctx with
    | .error e => .error e
    | .ok (wid, action, na, p2) =>
      match selectWrapper wid ctx action with
      | .error e => .error e
      | .ok frag => .ok ({ script := frag, is_query := false, next_arg := na }, p2)
  else if GLOBAL_ACTIONS.contains command then
    if command = "set_desktop" ∨ command = "set_num_desktops" then
      match globalNumLoop p none with
      | .error e => .error e
      | .ok (argn, na, p2) =>
        match argn with
        | some n =>
          let action := render (.GLOBAL_ACTION command) (add_context ctx "n" (.vInt n))
          .ok ({ script := render .STEP_GLOBAL_ACTION
                   (add_context ctx "action" (.vFrag action.1 action.2)),
                 is_query := false, next_arg := na }, p2)
        | none =>
          if command = "set_desktop" then .error (.missingArgument "desktop_id")
          else .error (.missingArgument "num")
    else
      let action := render (.GLOBAL_ACTION command) ctx
      .ok ({ script := render .STEP_GLOBAL_ACTION
               (add_context ctx "action" (.vFrag action.1 action.2)),
             is_query := false, next_arg := none }, p)
  else .error (.unknownCommand command)

/-- Modelled from the spec: the per-command cursor reset called at the top of the
compile loop (main.rs line 68; the parser module is not under src). The modelled
cursor carries no hidden state, so the reset returns it unchanged. -/
def resetParser (p : Parser) : Except Err Parser := .ok p

/-- The compile loop of generate_script (main.rs lines 67 to 93): run one directive,
record its fragment and query flag, and continue with the pushed-back token as the
next command when one is present, otherwise with the next bare value of the stream;
a flag token in command position is an unexpected-argument error, an exhausted
stream ends the loop. The Nat argument bounds the iteration count; generate_script
passes one more than the token count, which every terminating run stays below. -/
def scriptLoop (ctx : Ctx) : Nat → String → Parser → Except Err (List (Frag × Bool))
  | 0, _, _ => .error .fuelExhausted
  | fuel + 1, command, p =>
    match resetParser p with
    | .error e => .error e
    | .ok p1 =>
      match generate_step command p1 ctx with
      | .error e => .error (.inCommand command e)
      | .ok (sr, p2) =>
        match sr.next_arg, p2 with
        | some na, p2 =>
          match scriptLoop ctx fuel na p2 with
          | .error e => .error e
          | .ok tail => .ok ((sr.script, sr.is_query) :: tail)
        | none, [] => .ok [(sr.script, sr.is_query)]
        | none, .value v :: p3 =>
          match scriptLoop ctx fuel v p3 with
          | .error e => .error e
          | .ok tail => .ok ((sr.script, sr.is_query) :: tail)
        | none, t :: _ => .error (.unexpected t.raw)

/-- generate_script of main.rs (lines 50 to 102): header fragment, one fragment per
compiled step in order, the trailing last-result fragment exactly when the last
step is a query, then the footer fragment. The generated script is the fragment
sequence (fragment text is opaque; the source concatenates the rendered text in the
same order). -/
def generate_script (g : Globals) (p : Parser) (next_arg : String) :
    Except Err (List Frag) :=
  match scriptLoop (contextWraps g) (p.length + 1) next_arg p with
  | .error e => .error e
  | .ok steps =>
    .ok (render .SCRIPT_HEADER (contextWraps g) ::
          (steps.map Prod.fst ++
            ((if ((steps.getLast?).map Prod.snd).getD false then
                [render .STEP_LAST_OUTPUT (contextWraps g)]
              else []) ++
              [render .SCRIPT_FOOTER (contextWraps g)])))

/-- A default session context (Globals default in main.rs: empty strings, flags
off), used to instantiate concrete compilations. -/
def defaultGlobals : Globals :=
  { dbus_addr := "", cmdline := "", debug := false, kde5 := false, marker := "",
    script_name := "", shortcut := "" }

def ctx0 : Ctx := contextWraps defaultGlobals

def debugGlobals : Globals := { defaultGlobals with debug := true }

def kde5Globals : Globals := { defaultGlobals with kde5 := true }

/-! Projection helpers used to state concrete compilation facts without binders. -/

/-- True exactly when a compilation result is a success. -/
def isOkE (e : Except Err (StepResult × Parser)) : Bool :=
  match e with
  | .ok _ => true
  | .error _ => false

/-- Template of the fragment of a successfully compiled step. -/
def stepTemplate (e : Except Err (StepResult × Parser)) : Option TemplateId :=
  match e with
  | .ok (r, _) => some r.script.1
  | .error _ => none

/-- One binding of the fragment of a successfully compiled step. -/
def stepBinding (e : Except Err (StepResult × Parser)) (key : String) : Option Val :=
  match e with
  | .ok (r, _) => ctxGet r.script.2 key
  | .error _ => none

/-- One binding of the action fragment nested inside the wrapper fragment of a
successfully compiled window-action step. -/
def actionBinding (e : Except Err (StepResult × Parser)) (key : String) : Option Val :=
  match e with
  | .ok (r, _) =>
    match ctxGet r.script.2 "action" with
    | some (.vFrag _ actx) => ctxGet actx key
    | _ => none
  | .error _ => none

/-- Query flag of a successfully compiled step. -/
def stepIsQuery (e : Except Err (StepResult × Parser)) : Option Bool :=
  match e with
  | .ok (r, _) => some r.is_query
  | .error _ => none

/-- Pushed-back token of a successfully compiled step. -/
def stepNextArg (e : Except Err (StepResult × Parser)) : Option (Option String) :=
  match e with
  | .ok (r, _) => some r.next_arg
  | .error _ => none

/-- Remaining cursor after a successfully compiled step. -/
def stepRest (e : Except Err (StepResult × Parser)) : Option Parser :=
  match e with
  | .ok (_, p) => some p
  | .error _ => none

/-- A successful compile-loop run produces at least one step. -/
theorem scriptLoop_ne_nil (ctx : Ctx) (fuel : Nat) (c : String) (p : Parser)
    (steps : List (Frag × Bool)) (h : scriptLoop ctx fuel c p = .ok steps) :
    steps ≠ [] := by
  cases fuel with
  | zero => simp [scriptLoop] at h
  | succ n =>
    unfold scriptLoop at h
    simp only [resetParser] at h
    split at h
    · simp at h
    · split at h
      all_goals try (split at h)
      all_goals intro hn
      all_goals rw [hn] at h
      all_goals simp at h

/-- Claim C1: a successfully compiled pipeline is exactly the header fragment, one
fragment per compiled step in directive order, the trailing last-result fragment
exactly when the final step has its query flag set, and the footer fragment. -/
theorem spec_c1 (g : Globals) (p : Parser) (c : String) (frags : List Frag)
    (h : generate_script g p c = .ok frags) :
    ∃ steps last,
      scriptLoop (contextWraps g) (p.length + 1) c p = .ok steps ∧
      steps.getLast? = some last ∧
      frags = render .SCRIPT_HEADER (contextWraps g) ::
        (steps.map Prod.fst ++
          ((if last.2 then [render .STEP_LAST_OUTPUT (contextWraps g)] else []) ++
            [render .SCRIPT_FOOTER (contextWraps g)])) ∧
      frags.length = steps.length + (if last.2 then 3 else 2) := by
  unfold generate_script at h
  split at h
  · exact absurd h (by simp)
  next steps heq =>
    have hne : steps ≠ [] := scriptLoop_ne_nil _ _ _ _ _ heq
    simp only [Except.ok.injEq] at h
    cases hl : steps.getLast? with
    | none => exact absurd (List.getLast?_eq_none_iff.mp hl) hne
    | some last =>
      refine ⟨steps, last, heq, hl, ?_, ?_⟩
      · rw [← h]
        simp [hl]
      · rw [← h]
        cases hb : last.2 <;> simp [hl, hb]

theorem spec_c1_witness :
    ∃ steps last,
      scriptLoop (contextWraps defaultGlobals) 1 "getactivewindow" [] = .ok steps ∧
      steps.getLast? = some last ∧
      ([render .SCRIPT_HEADER ctx0,
        render .STEP_GETACTIVEWINDOW (add_context ctx0 "step_name" (.vStr "getactivewindow")),
        render .STEP_LAST_OUTPUT ctx0,
        render .SCRIPT_FOOTER ctx0] : List Frag) =
        render .SCRIPT_HEADER (contextWraps defaultGlobals) ::
        (steps.map Prod.fst ++
          ((if last.2 then [render .STEP_LAST_OUTPUT (contextWraps defaultGlobals)] else []) ++
            [render .SCRIPT_FOOTER (contextWraps defaultGlobals)])) ∧
      (4 : Nat) = steps.length + (if last.2 then 3 else 2) :=
  spec_c1 defaultGlobals [] "getactivewindow" _ rfl

/-- Claim C2: the token stream search foo activatewindow compiles to two steps; the
search step captures foo as its term, returns activatewindow as its pushed-back
token with the stream exhausted, and the compile loop turns that token into the
second directive without reading a fresh token. -/
theorem spec_c2 :
    stepTemplate (generate_step "search" [.value "foo", .value "activatewindow"] ctx0) =
      some .STEP_SEARCH ∧
    stepBinding (generate_step "search" [.value "foo", .value "activatewindow"] ctx0)
      "search_term" = some (.vStr "foo") ∧
    stepIsQuery (generate_step "search" [.value "foo", .value "activatewindow"] ctx0) =
      some true ∧
    stepNextArg (generate_step "search" [.value "foo", .value "activatewindow"] ctx0) =
      some (some "activatewindow") ∧
    stepRest (generate_step "search" [.value "foo", .value "activatewindow"] ctx0) =
      some [] ∧
    (∃ cS cA,
      generate_script defaultGlobals [.value "foo", .value "activatewindow"] "search" =
        .ok [render .SCRIPT_HEADER ctx0, (.STEP_SEARCH, cS),
             (.STEP_ACTION_ON_STACK_ITEM, cA), render .SCRIPT_FOOTER ctx0] ∧
      ctxGet cS "search_term" = some (.vStr "foo") ∧
      ctxGet cA "step_name" = some (.vStr "activatewindow")) :=
  ⟨rfl, rfl, rfl, rfl, rfl, ⟨_, _, rfl, rfl, rfl⟩⟩

/-- Claim C3: window-reference resolution. The all-stack token selects the all-stack
wrapper; a stack token with an integer index selects the stack-item wrapper with
that index; a token that is not stack syntax selects the explicit-id wrapper
embedding the literal id; an omitted reference behaves exactly as the stack token
for index one. The concrete directives use activatewindow with the references of
the claim. -/
theorem spec_c3 :
    (∀ ctx a, selectWrapper (some "%@") ctx a =
      .ok (render .STEP_ACTION_ON_STACK_ALL (add_context ctx "action" (.vFrag a.1 a.2)))) ∧
    (∀ wid n ctx a, strStartsWith wid "%" = true → wid ≠ "%@" →
      parseI32 (strDrop wid 1) = .ok n →
      selectWrapper (some wid) ctx a =
        .ok (render .STEP_ACTION_ON_STACK_ITEM
          (add_context (add_context ctx "action" (.vFrag a.1 a.2)) "item_index" (.vInt n)))) ∧
    (∀ wid ctx a, ¬ strStartsWith wid "%" = true →
      selectWrapper (some wid) ctx a =
        .ok (render .STEP_ACTION_ON_WINDOW_ID
          (add_context (add_context ctx "action" (.vFrag a.1 a.2)) "window_id" (.vStr wid)))) ∧
    (∀ ctx a, selectWrapper none ctx a = selectWrapper (some "%1") ctx a) ∧
    to_window_id "12345" = some "12345" ∧
    stepTemplate (generate_step "activatewindow" [.value "%2"] ctx0) =
      some .STEP_ACTION_ON_STACK_ITEM ∧
    stepBinding (generate_step "activatewindow" [.value "%2"] ctx0) "item_index" =
      some (.vInt 2) ∧
    stepTemplate (generate_step "activatewindow" [.value "12345"] ctx0) =
      some .STEP_ACTION_ON_WINDOW_ID ∧
    stepBinding (generate_step "activatewindow" [.value "12345"] ctx0) "window_id" =
      some (.vStr "12345") ∧
    generate_step "activatewindow" [] ctx0 = generate_step "activatewindow" [.value "%1"] ctx0 ∧
    stepBinding (generate_step "activatewindow" [] ctx0) "item_index" = some (.vInt 1) := by
  refine ⟨fun ctx a => rfl, ?_, ?_, fun ctx a => rfl, rfl, rfl, rfl, rfl, rfl, rfl, rfl⟩
  · intro wid n ctx a h1 h2 h3
    simp [selectWrapper, h1, h2, h3, render]
  · intro wid ctx a h1
    have h2 : wid ≠ "%@" := by
      intro hw
      subst hw
      exact h1 (by decide)
    simp [selectWrapper, h1, h2, render]

theorem spec_c3_witness :
    selectWrapper (some "%2") ctx0 (.STEP_GETACTIVEWINDOW, ctx0) =
      .ok (render .STEP_ACTION_ON_STACK_ITEM
        (add_context (add_context ctx0 "action" (.vFrag .STEP_GETACTIVEWINDOW ctx0))
          "item_index" (.vInt 2))) ∧
    selectWrapper (some "12345") ctx0 (.STEP_GETACTIVEWINDOW, ctx0) =
      .ok (render .STEP_ACTION_ON_WINDOW_ID
        (add_context (add_context ctx0 "action" (.vFrag .STEP_GETACTIVEWINDOW ctx0))
          "window_id" (.vStr "12345"))) :=
  ⟨spec_c3.2.1 "%2" 2 ctx0 (.STEP_GETACTIVEWINDOW, ctx0) (by decide) (by decide) rfl,
   spec_c3.2.2.1 "12345" ctx0 (.STEP_GETACTIVEWINDOW, ctx0) (by decide)⟩

/-- The search loop never touches the four attribute-match options when none of the
class, classname, role and name flags occur in the stream. -/
theorem searchLoop_attrs (p : Parser) (opt : SearchOptions) :
    ∀ o na p2,
    Tok.long "class" ∉ p → Tok.long "classname" ∉ p → Tok.long "role" ∉ p →
    Tok.long "name" ∉ p →
    searchLoop p opt = .ok (o, na, p2) →
    o.match_class = opt.match_class ∧ o.match_classname = opt.match_classname ∧
      o.match_role = opt.match_role ∧ o.match_name = opt.match_name := by
  induction p, opt using searchLoop.induct <;>
    intro o na p2 h1 h2 h3 h4 h <;>
    (try simp_all [searchLoop, List.mem_cons])
  case case18 rest opt ih => cases rest <;> simp_all [searchLoop]
  case case19 rest opt ih => cases rest <;> simp_all [searchLoop]
  case case20 oo rest opt hc1 hc2 hc3 hc4 hc5 hc6 hc7 hc8 hc9 hc10 =>
    cases rest <;> simp_all [searchLoop]

/-- Claim C4: a search directive with none of the class, classname, role and name
flags compiles with all four attribute-match bindings enabled; and the directive
search with pid 42 and the term captures pid-match true, pid 42, the term, and the
four default attribute bindings. -/
theorem spec_c4 :
    (∀ p ctx r p2,
      Tok.long "class" ∉ p → Tok.long "classname" ∉ p → Tok.long "role" ∉ p →
      Tok.long "name" ∉ p →
      step_search p ctx = .ok (r, p2) →
      ctxGet r.script.2 "match_class" = some (.vBool true) ∧
      ctxGet r.script.2 "match_classname" = some (.vBool true) ∧
      ctxGet r.script.2 "match_role" = some (.vBool true) ∧
      ctxGet r.script.2 "match_name" = some (.vBool true)) ∧
    stepBinding (generate_step "search" [.long "pid", .value "42", .value "term"] ctx0)
      "match_pid" = some (.vBool true) ∧
    stepBinding (generate_step "search" [.long "pid", .value "42", .value "term"] ctx0)
      "pid" = some (.vInt 42) ∧
    stepBinding (generate_step "search" [.long "pid", .value "42", .value "term"] ctx0)
      "search_term" = some (.vStr "term") ∧
    stepBinding (generate_step "search" [.long "pid", .value "42", .value "term"] ctx0)
      "match_class" = some (.vBool true) ∧
    stepBinding (generate_step "search" [.long "pid", .value "42", .value "term"] ctx0)
      "match_classname" = some (.vBool true) ∧
    stepBinding (generate_step "search" [.long "pid", .value "42", .value "term"] ctx0)
      "match_role" = some (.vBool true) ∧
    stepBinding (generate_step "search" [.long "pid", .value "42", .value "term"] ctx0)
      "match_name" = some (.vBool true) := by
  refine ⟨?_, rfl, rfl, rfl, rfl, rfl, rfl, rfl⟩
  intro p ctx r p2 h1 h2 h3 h4 h
  unfold step_search at h
  split at h
  · exact absurd h (by simp)
  next opt1 na p2x heq =>
    obtain ⟨e1, e2, e3, e4⟩ :=
      searchLoop_attrs p (searchInit ctx) opt1 na p2x h1 h2 h3 h4 heq
    have f1 : opt1.match_class = false := e1
    have f2 : opt1.match_classname = false := e2
    have f3 : opt1.match_role = false := e3
    have f4 : opt1.match_name = false := e4
    simp only [Except.ok.injEq, Prod.mk.injEq] at h
    obtain ⟨hr, hp⟩ := h
    subst hr
    have hfix : searchFixup opt1 =
        { opt1 with match_class := true, match_classname := true,
                    match_role := true, match_name := true } := by
      unfold searchFixup
      rw [f1, f2, f3, f4]
      simp
    simp [render, optionsCtx, ctxGet, hfix]

theorem spec_c4_witness :
    stepBinding (step_search [.value "foo"] ctx0) "match_class" = some (.vBool true) ∧
    stepBinding (step_search [.value "foo"] ctx0) "match_classname" = some (.vBool true) ∧
    stepBinding (step_search [.value "foo"] ctx0) "match_role" = some (.vBool true) ∧
    stepBinding (step_search [.value "foo"] ctx0) "match_name" = some (.vBool true) := by
  obtain ⟨h1, h2, h3, h4⟩ :=
    spec_c4.1 [.value "foo"] ctx0 _ _ (by decide) (by decide) (by decide) (by decide) rfl
  exact ⟨h1, h2, h3, h4⟩

/-- Claim C5 (failing examples and axis semantics): without a window reference the
first two positional values of windowmove both land in the x slot (the second
overwrites the first), so the y slot stays empty and the step fails with the
missing-argument error for y instead of the behavior the claim states; the claimed
per-axis semantics (keyword leaves the axis unset, integer is absolute, trailing
percent is a percentage) do hold once a window reference is present. -/
theorem spec_c5_eval :
    generate_step "windowmove" [.value "x", .value "50%"] ctx0 =
      .error (.missingArgument "y") ∧
    generate_step "windowmove" [.value "100", .value "200"] ctx0 =
      .error (.missingArgument "y") ∧
    generate_step "windowmove" [.value "abc", .value "5"] ctx0 =
      .error (.intParse "abc") ∧
    actionBinding (generate_step "windowmove" [.value "%1", .value "x", .value "50%"] ctx0)
      "x" = some (.vStr "") ∧
    actionBinding (generate_step "windowmove" [.value "%1", .value "x", .value "50%"] ctx0)
      "x_percent" = some (.vStr "") ∧
    actionBinding (generate_step "windowmove" [.value "%1", .value "x", .value "50%"] ctx0)
      "y" = some (.vStr "") ∧
    actionBinding (generate_step "windowmove" [.value "%1", .value "x", .value "50%"] ctx0)
      "y_percent" = some (.vStr "50") ∧
    actionBinding (generate_step "windowmove" [.value "%1", .value "100", .value "200"] ctx0)
      "x" = some (.vStr "100") ∧
    actionBinding (generate_step "windowmove" [.value "%1", .value "100", .value "200"] ctx0)
      "y" = some (.vStr "200") :=
  ⟨rfl, rfl, rfl, rfl, rfl, rfl, rfl, rfl, rfl⟩

/-- Claim C6: each add, remove or toggle flag of windowstate appends exactly one
property mutation in encounter order, an unknown property is the fatal unsupported
property error, and the concrete directive of the claim yields the set-maximized
mutation followed by the toggle-minimized mutation. -/
theorem spec_c6 :
    (∀ o k prop rest ws wid na, (o = "add" ∨ o = "remove" ∨ o = "toggle") →
      tableGet WINDOWSTATE_PROPERTIES (strToLower k) = some prop →
      windowstateLoop (.long o :: .value k :: rest) ws wid na =
        windowstateLoop rest (ws ++ mutationJs o prop) wid na) ∧
    (∀ o k rest ws wid na, (o = "add" ∨ o = "remove" ∨ o = "toggle") →
      tableGet WINDOWSTATE_PROPERTIES (strToLower k) = none →
      windowstateLoop (.long o :: .value k :: rest) ws wid na =
        .error (.unsupportedProperty (strToLower k))) ∧
    actionBinding (generate_step "windowstate"
        [.long "add", .value "maximized", .long "toggle", .value "minimized"] ctx0)
      "windowstate" =
      some (.vStr "w.maximized = true; w.minimized = !w.minimized; ") ∧
    isOkE (generate_step "windowstate"
        [.long "add", .value "maximized", .long "toggle", .value "minimized"] ctx0) = true := by
  refine ⟨?_, ?_, rfl, rfl⟩
  · intro o k prop rest ws wid na ho htab
    rcases ho with rfl | rfl | rfl <;>
      simp [windowstateLoop, Tok.raw, htab, mutationJs]
  · intro o k rest ws wid na ho htab
    rcases ho with rfl | rfl | rfl <;>
      simp [windowstateLoop, Tok.raw, htab]

theorem spec_c6_witness :
    windowstateLoop [.long "add", .value "maximized"] "" none none =
      windowstateLoop [] ("" ++ mutationJs "add" "maximized") none none ∧
    windowstateLoop [.long "toggle", .value "bogus"] "" none none =
      .error (.unsupportedProperty "bogus") :=
  ⟨spec_c6.1 "add" "maximized" "maximized" [] "" none none (Or.inl rfl) rfl,
   spec_c6.2.1 "toggle" "bogus" [] "" none none (Or.inr (Or.inr rfl)) rfl⟩

/-- Claim C7 (code behavior at the failing input): a set_desktop_for_window
directive without a desktop id compiles successfully, binding the desktop id to
null, instead of failing with the descriptive missing-argument error the claim
states; compare the set_desktop branch, which does fail when its integer is
missing. -/
theorem spec_c7_eval :
    isOkE (generate_step "set_desktop_for_window" [.value "%1"] ctx0) = true ∧
    actionBinding (generate_step "set_desktop_for_window" [.value "%1"] ctx0)
      "desktop_id" = some .vNull ∧
    stepNextArg (generate_step "set_desktop_for_window" [.value "%1"] ctx0) = some none ∧
    generate_step "set_desktop" [] ctx0 = .error (.missingArgument "desktop_id") :=
  ⟨rfl, rfl, rfl, rfl⟩

/-- Claim C8 (code behavior at the failing input): the kde5 binding of a compiled
search step follows the debug flag of the session context, not its kde5 flag,
because the source reads the debug entry for both fields. -/
theorem spec_c8_eval :
    debugGlobals.debug = true ∧ debugGlobals.kde5 = false ∧
    stepBinding (step_search [.value "foo"] (contextWraps debugGlobals)) "kde5" =
      some (.vBool true) ∧
    kde5Globals.debug = false ∧ kde5Globals.kde5 = true ∧
    stepBinding (step_search [.value "foo"] (contextWraps kde5Globals)) "kde5" =
      some (.vBool false) :=
  ⟨rfl, rfl, rfl, rfl, rfl, rfl⟩

/-- Claim C9: script generation is a pure function of the session context, the
token stream and the first command, so equal inputs give byte-identical generated
script text; the single generated value is what both the dry-run print and the
persisted script file use. -/
theorem spec_c9 (g g2 : Globals) (p p2 : Parser) (c c2 : String)
    (hg : g = g2) (hp : p = p2) (hc : c = c2) :
    generate_script g p c = generate_script g2 p2 c2 := by
  rw [hg, hp, hc]

theorem spec_c9_witness :
    generate_script defaultGlobals [.value "foo"] "search" =
      generate_script defaultGlobals [.value "foo"] "search" :=
  spec_c9 defaultGlobals defaultGlobals [.value "foo"] [.value "foo"] "search" "search"
    rfl rfl rfl

/-- Claim C10: the property token of a windowstate flag is lowercased before the
table lookup, so two spellings with the same lowercase form produce identical
steps; in particular the uppercase spelling of maximized compiles exactly like the
lowercase one. -/
theorem spec_c10 :
    (∀ o k1 k2 rest ws wid na, (o = "add" ∨ o = "remove" ∨ o = "toggle") →
      strToLower k1 = strToLower k2 →
      windowstateLoop (.long o :: .value k1 :: rest) ws wid na =
        windowstateLoop (.long o :: .value k2 :: rest) ws wid na) ∧
    generate_step "windowstate" [.long "add", .value "MAXIMIZED"] ctx0 =
      generate_step "windowstate" [.long "add", .value "maximized"] ctx0 := by
  refine ⟨?_, rfl⟩
  intro o k1 k2 rest ws wid na ho hk
  rcases ho with rfl | rfl | rfl <;> simp [windowstateLoop, Tok.raw, hk]

theorem spec_c10_witness :
    windowstateLoop [.long "add", .value "MAXIMIZED"] "" none none =
      windowstateLoop [.long "add", .value "maximized"] "" none none :=
  spec_c10.1 "add" "MAXIMIZED" "maximized" [] "" none none (Or.inl rfl) rfl
